import Mathlib

/-!
Verification development for the trade-simulator repository.

The embedding models the simulator in src/trading/simulator.py
(class TradeSimulator) and the session scheduler in
src/apps/simulation_app/simulation_manager.py (class SimulationManager).
Python floats are modelled as rationals; the persistence sink
(save_to_csv / update_csv_accuracy) is modelled by recording, inside the
state, the snapshots that were handed to it.
-/

namespace TradeSim

/-- A price/prediction tick as consumed by the simulator.  The field
prediction is the entry of the predictions mapping selected for the
session interval (predicted_price, predicted_change_pct); the forecast
timestamp in the Python triple is never read by the simulator, so it is
dropped here. -/
structure Tick where
  timestamp : String
  actualPrice : ℚ
  prediction : Option (ℚ × ℚ)
  mae10min : Option ℚ
deriving DecidableEq

/-- A trade record, one dict of TradeSimulator.trade_log. -/
structure TradeRec where
  timestamp : String
  type : String
  price : ℚ
  amount : ℚ
  fee : ℚ
  balance : ℚ
  profit : Option ℚ
  actualPrice : ℚ
  predictedPrice : Option ℚ
  predictedChangePct : Option ℚ
  reason : String
  predictionAccuracy : Option Bool
  mae10min : Option ℚ
  accuracyPct : ℚ
deriving DecidableEq

/-- The mutable state of one TradeSimulator instance, plus the sequence of
snapshots given to the persistence sink (saves for save_to_csv calls,
updates counting update_csv_accuracy calls). -/
structure SimState where
  balance : ℚ
  btc : ℚ
  buyPrice : ℚ
  feePct : ℚ
  entryThreshold : ℚ
  exitThreshold : ℚ
  interval : String
  sessionId : String
  maeStopEnabled : Bool
  maeStopThreshold : ℚ
  stopLossPct : ℚ
  stopLossPrice : Option ℚ
  autoPaused : Bool
  lastMae : Option ℚ
  tradeLog : List TradeRec
  balanceSeries : List (String × ℚ)
  profitSeries : List (String × ℚ)
  accuracySeries : List (String × ℚ)
  maeSeries : List (String × ℚ)
  correctPredictions : Nat
  totalPredictions : Nat
  lastTick : Option Tick
  pendingLog : Option TradeRec
  saves : List (List TradeRec)
  updates : Nat
deriving DecidableEq

/-- TradeSimulator.__init__: the balance series starts with one sample at
the creation timestamp. -/
def mkSim (startBalance entryThreshold exitThreshold feePct : ℚ)
    (interval sessionId : String) (maeStopEnabled : Bool)
    (maeStopThreshold stopLossPct : ℚ) (startTs : String) : SimState :=
  { balance := startBalance
    btc := 0
    buyPrice := 0
    feePct := feePct
    entryThreshold := entryThreshold
    exitThreshold := exitThreshold
    interval := interval
    sessionId := sessionId
    maeStopEnabled := maeStopEnabled
    maeStopThreshold := maeStopThreshold
    stopLossPct := stopLossPct
    stopLossPrice := none
    autoPaused := false
    lastMae := none
    tradeLog := []
    balanceSeries := [(startTs, startBalance)]
    profitSeries := []
    accuracySeries := []
    maeSeries := []
    correctPredictions := 0
    totalPredictions := 0
    lastTick := none
    pendingLog := none
    saves := []
    updates := 0 }

/-- Sign of a rational, as the Python comparisons 1 if x > 0 else (-1 if x < 0 else 0). -/
def sign (x : ℚ) : Int := if x > 0 then 1 else if x < 0 then -1 else 0

/-- The stored predicted_change_pct of a tick: predictions.get(interval)[1].
Every tick stored as last_tick has a prediction (process_tick returns
before storing otherwise), so the default 0 for a missing prediction is
never exercised on stored ticks. -/
def predChange (t : Tick) : ℚ :=
  match t.prediction with
  | some p => p.2
  | none => 0

/-- The percentage change used by the accuracy check:
(current_price - last_actual_price) / last_actual_price * 100. -/
def actualChangePct (lastActualPrice currentPrice : ℚ) : ℚ :=
  (currentPrice - lastActualPrice) / lastActualPrice * 100

/-- Sign of the prediction stored on a tick. -/
def predSign (t : Tick) : Int := sign (predChange t)

/-- The is_correct flag of check_prediction_accuracy: predicted and actual
signs match and the predicted sign is non-zero. -/
def isCorrectPred (lastTick : Tick) (currentPrice : ℚ) : Bool :=
  predSign lastTick == sign (actualChangePct lastTick.actualPrice currentPrice)
    && predSign lastTick != 0

/-- TradeSimulator.check_prediction_accuracy: updates the two counters and
returns the is_correct flag.  The operation string argument of the Python
method is only used for logging and is dropped. -/
def checkPredictionAccuracy (s : SimState) (lastTick : Tick) (currentPrice : ℚ) :
    SimState × Bool :=
  let isCorrect := isCorrectPred lastTick currentPrice
  if predSign lastTick ≠ 0 then
    ({ s with totalPredictions := s.totalPredictions + 1
              correctPredictions :=
                if isCorrect then s.correctPredictions + 1 else s.correctPredictions },
     isCorrect)
  else (s, isCorrect)

/-- TradeSimulator.get_prediction_accuracy. -/
def getPredictionAccuracy (s : SimState) : ℚ :=
  if s.totalPredictions > 0 then
    (s.correctPredictions : ℚ) / (s.totalPredictions : ℚ) * 100
  else 0

/-- TradeSimulator.save_session: hands the trade log to the persistence
sink, but returns immediately when the trade log is empty. -/
def saveSession (s : SimState) : SimState :=
  if s.tradeLog = [] then s else { s with saves := s.saves ++ [s.tradeLog] }

/-- TradeSimulator.update_session: calls update_csv_accuracy, but returns
immediately when the trade log is empty. -/
def updateSession (s : SimState) : SimState :=
  if s.tradeLog = [] then s else { s with updates := s.updates + 1 }

/-- The retroactive fill performed in TradeSimulator.sell: the first BUY
record whose timestamp matches the pending log gets its
prediction_accuracy and profit fields overwritten, then the loop breaks. -/
def fillBuyRec (ts : String) (acc : Option Bool) (profit : ℚ) :
    List TradeRec → List TradeRec
  | [] => []
  | r :: rs =>
    if r.timestamp = ts ∧ r.type = "BUY" then
      { r with predictionAccuracy := acc, profit := some profit } :: rs
    else r :: fillBuyRec ts acc profit rs

/-- Overwrites the reason of the last trade record; models the Python
mutation of pending_log, which aliases the most recently appended record
of trade_log. -/
def setLastReason (reason : String) : List TradeRec → List TradeRec
  | [] => []
  | [r] => [{ r with reason := reason }]
  | r :: rs => r :: setLastReason reason rs

/-- TradeSimulator.buy: note that the computed fee is only recorded, the
amount is balance / price with no fee deduction, and the balance field is
left unchanged. -/
def buy (s : SimState) (timestamp : String) (price predictedPrice predictedChangePct : ℚ) :
    SimState :=
  let amount := s.balance / price
  let fee := s.balance * s.feePct
  let s1 := { s with btc := amount, buyPrice := price }
  let scored : SimState × Option Bool :=
    match s1.lastTick with
    | some lt =>
      let r := checkPredictionAccuracy s1 lt price
      (r.1, some r.2)
    | none => (s1, none)
  let s2 := scored.1
  let logRec : TradeRec :=
    { timestamp := timestamp
      type := "BUY"
      price := price
      amount := amount
      fee := fee
      balance := s2.balance
      profit := none
      actualPrice := price
      predictedPrice := some predictedPrice
      predictedChangePct := some predictedChangePct
      reason := "entry: predicted change at or above threshold"
      predictionAccuracy := scored.2
      mae10min := s2.lastMae
      accuracyPct := getPredictionAccuracy s2 }
  let s3 :=
    { s2 with pendingLog := some logRec
              tradeLog := s2.tradeLog ++ [logRec]
              balanceSeries := s2.balanceSeries ++ [(timestamp, s2.balance)]
              accuracySeries := s2.accuracySeries ++ [(timestamp, getPredictionAccuracy s2)] }
  saveSession s3

/-- TradeSimulator.sell: no-op when btc <= 0; otherwise computes proceeds,
fee and profit, sets balance := proceeds - fee, retroactively fills the
pending BUY record when a pending log and a last tick exist, scores the
SELL prediction when a last tick exists and predicted_price is not None,
appends the SELL record and the series samples, persists, and resets the
position. -/
def sell (s : SimState) (timestamp : String) (price : ℚ)
    (predictedPrice predictedChangePct : Option ℚ) : SimState :=
  if s.btc ≤ 0 then s
  else
    let proceeds := s.btc * price
    let fee := proceeds * s.feePct
    let profit := proceeds - s.btc * s.buyPrice - fee
    let s1 := { s with balance := proceeds - fee }
    let s2 :=
      match s1.pendingLog, s1.lastTick with
      | some pl, some lt =>
        if pl.type = "BUY" then
          let r := checkPredictionAccuracy s1 lt price
          updateSession
            { r.1 with tradeLog := fillBuyRec pl.timestamp (some r.2) profit r.1.tradeLog }
        else s1
      | _, _ => s1
    let scored : SimState × Option Bool :=
      match s2.lastTick, predictedPrice with
      | some lt, some _ =>
        let r := checkPredictionAccuracy s2 lt price
        (r.1, some r.2)
      | _, _ => (s2, none)
    let s3 := scored.1
    let reason :=
      match predictedPrice with
      | some p => if p ≠ 0 then "exit: predicted negative change" else "stop-loss"
      | none => "stop-loss"
    let logRec : TradeRec :=
      { timestamp := timestamp
        type := "SELL"
        price := price
        amount := s3.btc
        fee := fee
        balance := s3.balance
        profit := some profit
        actualPrice := price
        predictedPrice := predictedPrice
        predictedChangePct := predictedChangePct
        reason := reason
        predictionAccuracy := scored.2
        mae10min := s3.lastMae
        accuracyPct := getPredictionAccuracy s3 }
    let s4 :=
      saveSession
        { s3 with pendingLog := some logRec
                  tradeLog := s3.tradeLog ++ [logRec]
                  balanceSeries := s3.balanceSeries ++ [(timestamp, s3.balance)]
                  profitSeries := s3.profitSeries ++ [(timestamp, profit)]
                  accuracySeries := s3.accuracySeries ++ [(timestamp, getPredictionAccuracy s3)] }
    { s4 with btc := 0, buyPrice := 0, pendingLog := none }

/-- TradeSimulator.monitor_stop_loss: when a stop-loss price is set, a
position is open and the tick price is at or below the stop-loss price,
sells at the tick price, patches the reason of the pending log (which
aliases the last appended record) when one survives the sell, and clears
the stop-loss price. -/
def monitorStopLoss (s : SimState) (t : Tick) : SimState :=
  match s.stopLossPrice with
  | some slp =>
    if s.btc > 0 then
      if t.actualPrice ≤ slp then
        let s1 := sell s t.timestamp t.actualPrice none none
        let s2 :=
          match s1.pendingLog with
          | some pl =>
            { s1 with pendingLog := some { pl with reason := "stop-loss fired" }
                      tradeLog := setLastReason "stop-loss fired" s1.tradeLog }
          | none => s1
        { s2 with stopLossPrice := none }
      else s
    else s
  | none => s

/-- TradeSimulator.set_stop_loss: only meaningful with an open position;
arms the stop-loss at buy_price * (1 - stop_loss_pct). -/
def setStopLoss (s : SimState) : SimState :=
  if s.btc > 0 then { s with stopLossPrice := some (s.buyPrice * (1 - s.stopLossPct)) }
  else s

/-- True when the MAE auto-pause condition last_mae > mae_stop_threshold
holds on the current last_mae. -/
def maeExceeds (s : SimState) : Bool :=
  match s.lastMae with
  | some m => decide (s.maeStopThreshold < m)
  | none => false

/-- TradeSimulator.process_tick: records the MAE sample, runs the
stop-loss monitor, then in order checks auto-pause, the MAE breach, the
presence of a prediction, and the entry/exit signals.  When a BUY or SELL
fires the method returns before the final last_tick assignment. -/
def processTick (s : SimState) (t : Tick) : SimState :=
  let s0 :=
    { s with lastMae := t.mae10min
             maeSeries :=
               match t.mae10min with
               | some m => s.maeSeries ++ [(t.timestamp, m)]
               | none => s.maeSeries }
  let s1 := monitorStopLoss s0 t
  if s1.autoPaused then s1
  else if s1.maeStopEnabled && maeExceeds s1 then
    setStopLoss { s1 with autoPaused := true }
  else
    match t.prediction with
    | none => s1
    | some pr =>
      if s1.btc = 0 then
        if pr.2 ≥ s1.entryThreshold then
          buy s1 t.timestamp t.actualPrice pr.1 pr.2
        else { s1 with lastTick := some t }
      else if s1.btc > 0 then
        if pr.2 ≤ -s1.exitThreshold then
          sell s1 t.timestamp t.actualPrice (some pr.1) (some pr.2)
        else { s1 with lastTick := some t }
      else { s1 with lastTick := some t }

/-- One externally driven operation on a simulator: a processed tick, or a
direct buy or sell call. -/
inductive Act where
  | tick (t : Tick)
  | buyAct (timestamp : String) (price predictedPrice predictedChangePct : ℚ)
  | sellAct (timestamp : String) (price : ℚ) (predictedPrice predictedChangePct : Option ℚ)

/-- Applies one operation to a simulator state. -/
def applyAct (s : SimState) : Act → SimState
  | .tick t => processTick s t
  | .buyAct ts p pp pc => buy s ts p pp pc
  | .sellAct ts p pp pc => sell s ts p pp pc

/-- Runs a sequence of operations from a state. -/
def runActs (s : SimState) (acts : List Act) : SimState := acts.foldl applyAct s

/-- All prices fed to an operation are non-negative (tick actual price, or
the price argument of a direct buy or sell). -/
def actPriceNonneg : Act → Prop
  | .tick t => 0 ≤ t.actualPrice
  | .buyAct _ p _ _ => 0 ≤ p
  | .sellAct _ p _ _ => 0 ≤ p

/-- One registry entry of SimulationManager.simulations. -/
structure ManagerEntry where
  sim : SimState
  running : Bool
  paused : Bool
deriving DecidableEq

/-- The SimulationManager registry, keyed by (interval, session_id). -/
structure ManagerState where
  simulations : List ((String × String) × ManagerEntry)
deriving DecidableEq

/-- The session id built in SimulationManager.start_simulation from the
interval and the current time formatted with second resolution. -/
def sessionIdOf (interval timeStr : String) : String :=
  interval ++ "_" ++ timeStr

/-- Dict assignment simulations[interval][session_id] = entry: replaces
any existing entry under the same key. -/
def registerSession (m : ManagerState) (key : String × String) (e : ManagerEntry) :
    ManagerState :=
  { simulations := (key, e) :: m.simulations.filter (fun kv => !(kv.1 = key : Bool)) }

/-- Registry lookup by (interval, session_id). -/
def findSession (m : ManagerState) (key : String × String) : Option ManagerEntry :=
  (m.simulations.find? (fun kv => kv.1 = key)).map (fun kv => kv.2)

/-- SimulationManager.start_simulation: builds the session id from the
interval and the current time, constructs a TradeSimulator, registers it
as running and unpaused, and returns the session id.  The background
worker thread only feeds ticks to the simulator and is not part of the
state. -/
def startSimulation (m : ManagerState) (interval timeStr : String)
    (balance entryThreshold exitThreshold fee : ℚ) (maeStopEnabled : Bool)
    (maeStopThreshold stopLossPct : ℚ) : String × ManagerState :=
  let sid := sessionIdOf interval timeStr
  let sim := mkSim balance entryThreshold exitThreshold fee interval sid
    maeStopEnabled maeStopThreshold stopLossPct timeStr
  (sid, registerSession m (interval, sid) { sim := sim, running := true, paused := false })

lemma checkPA_fst (s : SimState) (lt : Tick) (p : ℚ) :
    (checkPredictionAccuracy s lt p).1 =
      { s with totalPredictions := s.totalPredictions + (if predSign lt ≠ 0 then 1 else 0)
               correctPredictions :=
                 s.correctPredictions + (if isCorrectPred lt p then 1 else 0) } := by
  by_cases h : predSign lt ≠ 0
  · by_cases h2 : isCorrectPred lt p <;> simp [checkPredictionAccuracy, h, h2]
  · have h0 : predSign lt = 0 := not_not.mp h
    have h2 : isCorrectPred lt p = false := by simp [isCorrectPred, h0]
    simp [checkPredictionAccuracy, h0, h2]

lemma checkPA_snd (s : SimState) (lt : Tick) (p : ℚ) :
    (checkPredictionAccuracy s lt p).2 = isCorrectPred lt p := by
  unfold checkPredictionAccuracy
  split <;> rfl

lemma saveSession_eq (s : SimState) :
    saveSession s =
      { s with saves := if s.tradeLog = [] then s.saves else s.saves ++ [s.tradeLog] } := by
  unfold saveSession
  by_cases h : s.tradeLog = []
  · rw [if_pos h, if_pos h]
  · rw [if_neg h, if_neg h]

lemma updateSession_eq (s : SimState) :
    updateSession s =
      { s with updates := if s.tradeLog = [] then s.updates else s.updates + 1 } := by
  unfold updateSession
  by_cases h : s.tradeLog = []
  · rw [if_pos h, if_pos h]
  · rw [if_neg h, if_neg h]

lemma fillBuyRec_length (ts : String) (acc : Option Bool) (profit : ℚ) (l : List TradeRec) :
    (fillBuyRec ts acc profit l).length = l.length := by
  induction l with
  | nil => rfl
  | cons r rs ih =>
    by_cases h : r.timestamp = ts ∧ r.type = "BUY" <;> simp [fillBuyRec, h, ih]

lemma setLastReason_length (reason : String) (l : List TradeRec) :
    (setLastReason reason l).length = l.length := by
  induction l with
  | nil => rfl
  | cons r rs ih =>
    cases rs with
    | nil => rfl
    | cons r2 rs2 => simpa [setLastReason] using ih

lemma buy_balance (s : SimState) (ts : String) (p pp pc : ℚ) :
    (buy s ts p pp pc).balance = s.balance := by
  cases h : s.lastTick <;> simp [buy, saveSession_eq, checkPA_fst, h]

lemma buy_btc (s : SimState) (ts : String) (p pp pc : ℚ) :
    (buy s ts p pp pc).btc = s.balance / p := by
  cases h : s.lastTick <;> simp [buy, saveSession_eq, checkPA_fst, h]

lemma buy_feePct (s : SimState) (ts : String) (p pp pc : ℚ) :
    (buy s ts p pp pc).feePct = s.feePct := by
  cases h : s.lastTick <;> simp [buy, saveSession_eq, checkPA_fst, h]

lemma buy_lastTick (s : SimState) (ts : String) (p pp pc : ℚ) :
    (buy s ts p pp pc).lastTick = s.lastTick := by
  cases h : s.lastTick <;> simp [buy, saveSession_eq, checkPA_fst, h]

lemma buy_tradeLog_length (s : SimState) (ts : String) (p pp pc : ℚ) :
    (buy s ts p pp pc).tradeLog.length = s.tradeLog.length + 1 := by
  cases h : s.lastTick <;> simp [buy, saveSession_eq, checkPA_fst, h]

lemma buy_stopLossPrice (s : SimState) (ts : String) (p pp pc : ℚ) :
    (buy s ts p pp pc).stopLossPrice = s.stopLossPrice := by
  cases h : s.lastTick <;> simp [buy, saveSession_eq, checkPA_fst, h]

lemma isCorrectPred_imp (lt : Tick) (p : ℚ) (h : isCorrectPred lt p = true) :
    predSign lt ≠ 0 := by
  simp only [isCorrectPred, Bool.and_eq_true, bne_iff_ne, ne_eq] at h
  exact h.2

lemma sell_noop (s : SimState) (ts : String) (p : ℚ) (pp pc : Option ℚ)
    (h : s.btc ≤ 0) : sell s ts p pp pc = s := by
  simp [sell, h]

lemma sell_btc (s : SimState) (ts : String) (p : ℚ) (pp pc : Option ℚ)
    (h : ¬ s.btc ≤ 0) : (sell s ts p pp pc).btc = 0 := by
  simp only [sell, if_neg h]

lemma sell_balance (s : SimState) (ts : String) (p : ℚ) (pp pc : Option ℚ)
    (h : ¬ s.btc ≤ 0) :
    (sell s ts p pp pc).balance = s.btc * p - s.btc * p * s.feePct := by
  simp only [sell, if_neg h]
  all_goals rcases hpl : s.pendingLog with _ | pl
  all_goals rcases hlt : s.lastTick with _ | lt
  all_goals rcases pp with _ | ppv
  all_goals
    try simp [checkPA_fst, checkPA_snd, saveSession_eq, updateSession_eq, hpl, hlt]
  all_goals
    try (split_ifs <;> simp)

lemma sell_feePct (s : SimState) (ts : String) (p : ℚ) (pp pc : Option ℚ)
    (h : ¬ s.btc ≤ 0) : (sell s ts p pp pc).feePct = s.feePct := by
  simp only [sell, if_neg h]
  all_goals rcases hpl : s.pendingLog with _ | pl
  all_goals rcases hlt : s.lastTick with _ | lt
  all_goals rcases pp with _ | ppv
  all_goals
    try simp [checkPA_fst, checkPA_snd, saveSession_eq, updateSession_eq, hpl, hlt]
  all_goals
    try (split_ifs <;> simp)

lemma sell_lastTick (s : SimState) (ts : String) (p : ℚ) (pp pc : Option ℚ)
    (h : ¬ s.btc ≤ 0) : (sell s ts p pp pc).lastTick = s.lastTick := by
  simp only [sell, if_neg h]
  all_goals rcases hpl : s.pendingLog with _ | pl
  all_goals rcases hlt : s.lastTick with _ | lt
  all_goals rcases pp with _ | ppv
  all_goals
    try simp [checkPA_fst, checkPA_snd, saveSession_eq, updateSession_eq, hpl, hlt]
  all_goals
    try (split_ifs <;> simp [hlt])

lemma sell_stopLossPrice (s : SimState) (ts : String) (p : ℚ) (pp pc : Option ℚ)
    (h : ¬ s.btc ≤ 0) : (sell s ts p pp pc).stopLossPrice = s.stopLossPrice := by
  simp only [sell, if_neg h]
  all_goals rcases hpl : s.pendingLog with _ | pl
  all_goals rcases hlt : s.lastTick with _ | lt
  all_goals rcases pp with _ | ppv
  all_goals
    try simp [checkPA_fst, checkPA_snd, saveSession_eq, updateSession_eq, hpl, hlt]
  all_goals
    try (split_ifs <;> simp)

lemma sell_tradeLog_length (s : SimState) (ts : String) (p : ℚ) (pp pc : Option ℚ)
    (h : ¬ s.btc ≤ 0) :
    (sell s ts p pp pc).tradeLog.length = s.tradeLog.length + 1 := by
  simp only [sell, if_neg h]
  all_goals rcases hpl : s.pendingLog with _ | pl
  all_goals rcases hlt : s.lastTick with _ | lt
  all_goals rcases pp with _ | ppv
  all_goals
    try simp [checkPA_fst, checkPA_snd, saveSession_eq, updateSession_eq, hpl, hlt,
      fillBuyRec_length]
  all_goals
    try (split_ifs <;> simp [fillBuyRec_length])

lemma sell_pendingLog (s : SimState) (ts : String) (p : ℚ) (pp pc : Option ℚ)
    (h : ¬ s.btc ≤ 0) : (sell s ts p pp pc).pendingLog = none := by
  simp only [sell, if_neg h]

lemma sell_buyPrice (s : SimState) (ts : String) (p : ℚ) (pp pc : Option ℚ)
    (h : ¬ s.btc ≤ 0) : (sell s ts p pp pc).buyPrice = 0 := by
  simp only [sell, if_neg h]

lemma sell_autoPaused (s : SimState) (ts : String) (p : ℚ) (pp pc : Option ℚ)
    (h : ¬ s.btc ≤ 0) : (sell s ts p pp pc).autoPaused = s.autoPaused := by
  simp only [sell, if_neg h]
  all_goals rcases hpl : s.pendingLog with _ | pl
  all_goals rcases hlt : s.lastTick with _ | lt
  all_goals rcases pp with _ | ppv
  all_goals
    try simp [checkPA_fst, checkPA_snd, saveSession_eq, updateSession_eq, hpl, hlt]
  all_goals
    try (split_ifs <;> simp)

lemma sell_lastMae (s : SimState) (ts : String) (p : ℚ) (pp pc : Option ℚ)
    (h : ¬ s.btc ≤ 0) : (sell s ts p pp pc).lastMae = s.lastMae := by
  simp only [sell, if_neg h]
  all_goals rcases hpl : s.pendingLog with _ | pl
  all_goals rcases hlt : s.lastTick with _ | lt
  all_goals rcases pp with _ | ppv
  all_goals
    try simp [checkPA_fst, checkPA_snd, saveSession_eq, updateSession_eq, hpl, hlt]
  all_goals
    try (split_ifs <;> simp)

lemma sell_entryThreshold (s : SimState) (ts : String) (p : ℚ) (pp pc : Option ℚ)
    (h : ¬ s.btc ≤ 0) : (sell s ts p pp pc).entryThreshold = s.entryThreshold := by
  simp only [sell, if_neg h]
  all_goals rcases hpl : s.pendingLog with _ | pl
  all_goals rcases hlt : s.lastTick with _ | lt
  all_goals rcases pp with _ | ppv
  all_goals
    try simp [checkPA_fst, checkPA_snd, saveSession_eq, updateSession_eq, hpl, hlt]
  all_goals
    try (split_ifs <;> simp)

lemma setStopLoss_balance (s : SimState) : (setStopLoss s).balance = s.balance := by
  unfold setStopLoss
  split <;> rfl

lemma setStopLoss_btc (s : SimState) : (setStopLoss s).btc = s.btc := by
  unfold setStopLoss
  split <;> rfl

lemma setStopLoss_feePct (s : SimState) : (setStopLoss s).feePct = s.feePct := by
  unfold setStopLoss
  split <;> rfl

lemma monitor_noop (s : SimState) (t : Tick) (h : s.stopLossPrice = none) :
    monitorStopLoss s t = s := by
  simp [monitorStopLoss, h]

lemma monitor_trigger (s : SimState) (t : Tick) (L : ℚ) (h1 : s.stopLossPrice = some L)
    (h2 : 0 < s.btc) (h3 : t.actualPrice ≤ L) :
    monitorStopLoss s t =
      { sell s t.timestamp t.actualPrice none none with stopLossPrice := none } := by
  simp [monitorStopLoss, h1, h2, h3, sell_pendingLog s t.timestamp t.actualPrice none none
    (not_le.mpr h2)]

lemma processTick_signal (s : SimState) (t : Tick) (pp pc : ℚ)
    (h1 : s.stopLossPrice = none) (h2 : s.autoPaused = false) (h3 : t.mae10min = none)
    (ht : t.prediction = some (pp, pc)) :
    processTick s t =
      (if s.btc = 0 then
        (if pc ≥ s.entryThreshold then
          buy { s with lastMae := none } t.timestamp t.actualPrice pp pc
         else { s with lastMae := none, lastTick := some t })
       else if s.btc > 0 then
        (if pc ≤ -s.exitThreshold then
          sell { s with lastMae := none } t.timestamp t.actualPrice (some pp) (some pc)
         else { s with lastMae := none, lastTick := some t })
       else { s with lastMae := none, lastTick := some t }) := by
  simp [processTick, monitor_noop, h1, h2, h3, ht, maeExceeds]

def InvF (s : SimState) : Prop :=
  0 ≤ s.balance ∧ 0 ≤ s.btc ∧ 0 ≤ s.feePct ∧ s.feePct ≤ 1

lemma buy_inv (s : SimState) (ts : String) (p pp pc : ℚ) (h : InvF s) (hp : 0 ≤ p) :
    InvF (buy s ts p pp pc) := by
  obtain ⟨h0, h1, h2, h3⟩ := h
  refine ⟨?_, ?_, ?_, ?_⟩
  · rw [buy_balance]; exact h0
  · rw [buy_btc]; exact div_nonneg h0 hp
  · rw [buy_feePct]; exact h2
  · rw [buy_feePct]; exact h3

lemma sell_inv (s : SimState) (ts : String) (p : ℚ) (pp pc : Option ℚ)
    (h : InvF s) (hp : 0 ≤ p) : InvF (sell s ts p pp pc) := by
  obtain ⟨h0, h1, h2, h3⟩ := h
  by_cases hb : s.btc ≤ 0
  · rw [sell_noop s ts p pp pc hb]; exact ⟨h0, h1, h2, h3⟩
  · refine ⟨?_, ?_, ?_, ?_⟩
    · rw [sell_balance s ts p pp pc hb]
      have hbp : 0 ≤ s.btc * p := mul_nonneg h1 hp
      nlinarith
    · rw [sell_btc s ts p pp pc hb]
    · rw [sell_feePct s ts p pp pc hb]; exact h2
    · rw [sell_feePct s ts p pp pc hb]; exact h3

lemma monitor_inv (s : SimState) (t : Tick) (h : InvF s) (hp : 0 ≤ t.actualPrice) :
    InvF (monitorStopLoss s t) := by
  rcases hsl : s.stopLossPrice with _ | L
  · rw [monitor_noop s t hsl]; exact h
  · by_cases hb : 0 < s.btc
    · by_cases hle : t.actualPrice ≤ L
      · rw [monitor_trigger s t L hsl hb hle]
        have := sell_inv s t.timestamp t.actualPrice none none h hp
        exact this
      · simp [monitorStopLoss, hsl, hb, hle]; exact h
    · simp [monitorStopLoss, hsl, hb]; exact h

lemma monitor_feePct (s : SimState) (t : Tick) :
    (monitorStopLoss s t).feePct = s.feePct := by
  rcases hsl : s.stopLossPrice with _ | L
  · rw [monitor_noop s t hsl]
  · by_cases hb : 0 < s.btc
    · by_cases hle : t.actualPrice ≤ L
      · rw [monitor_trigger s t L hsl hb hle]
        exact sell_feePct s t.timestamp t.actualPrice none none (not_le.mpr hb)
      · simp [monitorStopLoss, hsl, hb, hle]
    · simp [monitorStopLoss, hsl, hb]

def tickPre (s : SimState) (t : Tick) : SimState :=
  { s with lastMae := t.mae10min
           maeSeries := (match t.mae10min with
             | some m => s.maeSeries ++ [(t.timestamp, m)]
             | none => s.maeSeries) }

lemma processTick_def (s : SimState) (t : Tick) :
    processTick s t =
      (if (monitorStopLoss (tickPre s t) t).autoPaused then monitorStopLoss (tickPre s t) t
       else if (monitorStopLoss (tickPre s t) t).maeStopEnabled
           && maeExceeds (monitorStopLoss (tickPre s t) t) then
         setStopLoss { monitorStopLoss (tickPre s t) t with autoPaused := true }
       else
         match t.prediction with
         | none => monitorStopLoss (tickPre s t) t
         | some pr =>
           if (monitorStopLoss (tickPre s t) t).btc = 0 then
             if pr.2 ≥ (monitorStopLoss (tickPre s t) t).entryThreshold then
               buy (monitorStopLoss (tickPre s t) t) t.timestamp t.actualPrice pr.1 pr.2
             else { monitorStopLoss (tickPre s t) t with lastTick := some t }
           else if (monitorStopLoss (tickPre s t) t).btc > 0 then
             if pr.2 ≤ -(monitorStopLoss (tickPre s t) t).exitThreshold then
               sell (monitorStopLoss (tickPre s t) t) t.timestamp t.actualPrice
                 (some pr.1) (some pr.2)
             else { monitorStopLoss (tickPre s t) t with lastTick := some t }
           else { monitorStopLoss (tickPre s t) t with lastTick := some t }) := rfl

lemma invF_update_lastTick (s : SimState) (t : Tick) (h : InvF s) :
    InvF { s with lastTick := some t } := h

lemma processTick_inv (s : SimState) (t : Tick) (h : InvF s) (hp : 0 ≤ t.actualPrice) :
    InvF (processTick s t) := by
  rw [processTick_def]
  have hpre : InvF (tickPre s t) := h
  have hm : InvF (monitorStopLoss (tickPre s t) t) := monitor_inv _ t hpre hp
  split
  · exact hm
  · split
    · refine ⟨?_, ?_, ?_, ?_⟩
      · rw [setStopLoss_balance]; exact hm.1
      · rw [setStopLoss_btc]; exact hm.2.1
      · rw [setStopLoss_feePct]; exact hm.2.2.1
      · rw [setStopLoss_feePct]; exact hm.2.2.2
    · split
      · exact hm
      · split
        · split
          · exact buy_inv _ t.timestamp t.actualPrice _ _ hm hp
          · exact hm
        · split
          · split
            · exact sell_inv _ t.timestamp t.actualPrice _ _ hm hp
            · exact hm
          · exact hm
lemma runActs_inv (s : SimState) (acts : List Act) (h : InvF s)
    (hacts : ∀ a ∈ acts, actPriceNonneg a) : InvF (runActs s acts) := by
  induction acts generalizing s with
  | nil => exact h
  | cons a rest ih =>
    have ha := hacts a (List.mem_cons_self a rest)
    have hrest : ∀ x ∈ rest, actPriceNonneg x := fun x hx => hacts x (List.mem_cons_of_mem a hx)
    have hstep : InvF (applyAct s a) := by
      cases a with
      | tick t => exact processTick_inv s t h ha
      | buyAct ts p pp pc => exact buy_inv s ts p pp pc h ha
      | sellAct ts p pp pc => exact sell_inv s ts p pp pc h ha
    exact ih (applyAct s a) hstep hrest

lemma add_ite_le (a b : Nat) (lt : Tick) (p : ℚ) (h : a ≤ b) :
    (a + if isCorrectPred lt p = true then 1 else 0) ≤
      (b + if predSign lt = 0 then 0 else 1) := by
  by_cases h1 : isCorrectPred lt p
  · have h2 := isCorrectPred_imp lt p h1
    simp [h1, h2]
    omega
  · by_cases h2 : predSign lt = 0 <;> simp [h1, h2] <;> omega

lemma checkPA_total (s : SimState) (lt : Tick) (p : ℚ) :
    (checkPredictionAccuracy s lt p).1.totalPredictions =
      s.totalPredictions + (if predSign lt ≠ 0 then 1 else 0) := by
  rw [checkPA_fst]

lemma checkPA_correct (s : SimState) (lt : Tick) (p : ℚ) :
    (checkPredictionAccuracy s lt p).1.correctPredictions =
      s.correctPredictions + (if isCorrectPred lt p then 1 else 0) := by
  rw [checkPA_fst]

lemma buy_counters_le (s : SimState) (ts : String) (p pp pc : ℚ)
    (h : s.correctPredictions ≤ s.totalPredictions) :
    (buy s ts p pp pc).correctPredictions ≤ (buy s ts p pp pc).totalPredictions := by
  cases hlt : s.lastTick with
  | none => simp [buy, saveSession_eq, hlt]; exact h
  | some lt =>
    simp [buy, saveSession_eq, hlt, checkPA_fst]
    exact add_ite_le _ _ lt p h

lemma sell_counters_le (s : SimState) (ts : String) (p : ℚ) (pp pc : Option ℚ)
    (h : s.correctPredictions ≤ s.totalPredictions) :
    (sell s ts p pp pc).correctPredictions ≤ (sell s ts p pp pc).totalPredictions := by
  by_cases hb : s.btc ≤ 0
  · rw [sell_noop s ts p pp pc hb]; exact h
  · simp only [sell, if_neg hb]
    rcases hpl : s.pendingLog with _ | pl
    · rcases hlt : s.lastTick with _ | lt
      · rcases pp with _ | ppv <;>
          simp [checkPA_fst, checkPA_snd, saveSession_eq, updateSession_eq, hpl, hlt] <;>
          exact h
      · rcases pp with _ | ppv <;>
          simp [checkPA_fst, checkPA_snd, saveSession_eq, updateSession_eq, hpl, hlt]
        · exact h
        · exact add_ite_le _ _ lt p h
    · rcases hlt : s.lastTick with _ | lt
      · rcases pp with _ | ppv <;>
          simp [checkPA_fst, checkPA_snd, saveSession_eq, updateSession_eq, hpl, hlt] <;>
          exact h
      · rcases pp with _ | ppv <;> by_cases hty : pl.type = "BUY" <;>
          simp [checkPA_fst, checkPA_snd, saveSession_eq, updateSession_eq, hpl, hlt, hty] <;>
          first
            | exact h
            | exact add_ite_le _ _ lt p h
            | exact add_ite_le _ _ lt p (add_ite_le _ _ lt p h)

lemma monitor_counters_le (s : SimState) (t : Tick)
    (h : s.correctPredictions ≤ s.totalPredictions) :
    (monitorStopLoss s t).correctPredictions ≤ (monitorStopLoss s t).totalPredictions := by
  rcases hsl : s.stopLossPrice with _ | L
  · rw [monitor_noop s t hsl]; exact h
  · by_cases hb : 0 < s.btc
    · by_cases hle : t.actualPrice ≤ L
      · rw [monitor_trigger s t L hsl hb hle]
        exact sell_counters_le s t.timestamp t.actualPrice none none h
      · simp [monitorStopLoss, hsl, hb, hle]; exact h
    · simp [monitorStopLoss, hsl, hb]; exact h

lemma setStopLoss_correct (s : SimState) :
    (setStopLoss s).correctPredictions = s.correctPredictions := by
  unfold setStopLoss
  split <;> rfl

lemma setStopLoss_total (s : SimState) :
    (setStopLoss s).totalPredictions = s.totalPredictions := by
  unfold setStopLoss
  split <;> rfl

lemma processTick_counters_le (s : SimState) (t : Tick)
    (h : s.correctPredictions ≤ s.totalPredictions) :
    (processTick s t).correctPredictions ≤ (processTick s t).totalPredictions := by
  rw [processTick_def]
  have hpre : (tickPre s t).correctPredictions ≤ (tickPre s t).totalPredictions := h
  have hm := monitor_counters_le (tickPre s t) t hpre
  split
  · exact hm
  · split
    · rw [setStopLoss_correct, setStopLoss_total]; exact hm
    · split
      · exact hm
      · split
        · split
          · exact buy_counters_le _ t.timestamp t.actualPrice _ _ hm
          · exact hm
        · split
          · split
            · exact sell_counters_le _ t.timestamp t.actualPrice _ _ hm
            · exact hm
          · exact hm

lemma runActs_counters_le (s : SimState) (acts : List Act)
    (h : s.correctPredictions ≤ s.totalPredictions) :
    (runActs s acts).correctPredictions ≤ (runActs s acts).totalPredictions := by
  induction acts generalizing s with
  | nil => exact h
  | cons a rest ih =>
    have hstep : (applyAct s a).correctPredictions ≤ (applyAct s a).totalPredictions := by
      cases a with
      | tick t => exact processTick_counters_le s t h
      | buyAct ts p pp pc => exact buy_counters_le s ts p pp pc h
      | sellAct ts p pp pc => exact sell_counters_le s ts p pp pc h
    exact ih (applyAct s a) hstep

def simA : SimState := mkSim 1000 (3/100) (3/100) (1/10) "1m" "sA" false 12 (1/100) "t-init"

def simB : SimState := mkSim 1000 (3/100) (3/100) 0 "1m" "sB" false 12 (1/100) "t-init"

/-- Claim C1, as stated, is false: with start balance 1000, fee rate 1/10,
BUY at 100 and SELL at 110, the simulator records profit -10 on the SELL,
while the claimed formula B0*(1-f)/P0 * P1*(1-f) - B0*(1-f) gives -9 (and
1097801/1000 - 999 under the fee_pct/100 reading).  The code deducts no
entry fee, leaves the balance unchanged on BUY, and charges the exit fee
on the full proceeds. -/
theorem c1_counterexample :
    ((sell (buy simA "t0" 100 100 1) "t1" 110 (some 111) (some (-1))).tradeLog.map
      (fun r => r.profit)) = [none, some (-10)] ∧
    ((-10 : ℚ) ≠ 1000 * (1 - 1/10) / 100 * (110 * (1 - 1/10)) - 1000 * (1 - 1/10)) := by
  constructor
  · norm_num [simA, mkSim, buy, sell, saveSession, updateSession, checkPredictionAccuracy,
      getPredictionAccuracy, fillBuyRec, isCorrectPred, predSign, predChange, sign,
      actualChangePct, List.cons_ne_nil]
  · norm_num

/-- Claim C1 amended: for every starting balance B0 > 0, fee rate f and
positive prices P0, P1, a FLAT simulator that executes BUY at P0 and then
SELL at P1 records on the SELL the profit B0/P0 * P1 * (1 - f) - B0: the
BUY spends the full balance with no fee deduction (amount = balance/price,
balance unchanged), and the SELL charges the fee on the full proceeds. -/
theorem c1_theorem (B0 P0 P1 f e x maeT slPct : ℚ) (iv sid ts ts0 ts1 : String)
    (me : Bool) (pp pc pp2 pc2 : ℚ)
    (hB0 : 0 < B0) (hP0 : 0 < P0) (hP1 : 0 < P1) :
    ((sell (buy (mkSim B0 e x f iv sid me maeT slPct ts) ts0 P0 pp pc)
        ts1 P1 (some pp2) (some pc2)).tradeLog.map (fun r => r.profit)) =
      [none, some (B0 / P0 * P1 * (1 - f) - B0)] := by
  have hb : (0 : ℚ) < B0 / P0 := div_pos hB0 hP0
  have hb' : ¬ (B0 / P0 ≤ 0) := not_le.mpr hb
  simp [mkSim, buy, sell, saveSession_eq, hb', List.cons_ne_nil]
  rw [div_mul_cancel₀ _ (ne_of_gt hP0)]
  ring

/-- Witness for C1 amended at B0 = 1000, P0 = 100, P1 = 110, f = 1/10. -/
theorem c1_witness :
    ((sell (buy (mkSim 1000 (3/100) (3/100) (1/10) "1m" "sA" false 12 (1/100) "t-init")
        "t0" 100 100 1) "t1" 110 (some 111) (some (-1))).tradeLog.map
      (fun r => r.profit)) = [none, some (1000 / 100 * 110 * (1 - 1/10) - 1000)] :=
  c1_theorem 1000 100 110 (1/10) (3/100) (3/100) 12 (1/100) "1m" "sA" "t-init" "t0" "t1"
    false 100 1 111 (-1) (by norm_num) (by norm_num) (by norm_num)

/-- Claim C2, as stated, is false: after a BUY from a fresh simulator with
start balance 1000 the position is 10 units but the balance is still 1000,
not 0 (buy never zeroes the balance). -/
theorem c2_counterexample :
    0 < (buy simA "t0" 100 100 1).btc ∧ (buy simA "t0" 100 100 1).balance = 1000 := by
  constructor <;>
    norm_num [simA, mkSim, buy, saveSession, checkPredictionAccuracy,
      getPredictionAccuracy, List.cons_ne_nil]

/-- Claim C2 amended: a BUY leaves the balance unchanged, so an open
position does not imply a zero balance; the invariant that does hold for
every state reachable by any sequence of process_tick / buy / sell calls
from creation (with non-negative start balance, fee rate between 0 and 1,
and non-negative prices) is balance >= 0 and position_size >= 0. -/
theorem c2_theorem (B0 e x f maeT slPct : ℚ) (iv sid ts : String) (me : Bool)
    (acts : List Act) (hB0 : 0 ≤ B0) (hf0 : 0 ≤ f) (hf1 : f ≤ 1)
    (hacts : ∀ a ∈ acts, actPriceNonneg a) :
    0 ≤ (runActs (mkSim B0 e x f iv sid me maeT slPct ts) acts).balance ∧
    0 ≤ (runActs (mkSim B0 e x f iv sid me maeT slPct ts) acts).btc := by
  have h := runActs_inv (mkSim B0 e x f iv sid me maeT slPct ts) acts
    ⟨hB0, le_refl 0, hf0, hf1⟩ hacts
  exact ⟨h.1, h.2.1⟩

/-- Witness for C2 amended: a buy followed by a tick. -/
theorem c2_witness :
    0 ≤ (runActs (mkSim 1000 (3/100) (3/100) (1/10) "1m" "sA" false 12 (1/100) "t-init")
        [Act.buyAct "t0" 100 100 1]).balance ∧
    0 ≤ (runActs (mkSim 1000 (3/100) (3/100) (1/10) "1m" "sA" false 12 (1/100) "t-init")
        [Act.buyAct "t0" 100 100 1]).btc :=
  c2_theorem 1000 (3/100) (3/100) (1/10) 12 (1/100) "1m" "sA" "t-init" false
    [Act.buyAct "t0" 100 100 1] (by norm_num) (by norm_num) (by norm_num)
    (by
      intro a ha
      rcases List.mem_singleton.mp ha with rfl
      exact (by norm_num : (0 : ℚ) ≤ 100))

def longB : SimState := buy simB "t0" 100 100 1

def tickGain : Tick :=
  { timestamp := "t1", actualPrice := 10003/100, prediction := some (100, 1/100),
    mae10min := none }

/-- Claim C3, as stated, is false: while LONG with entry price 100 and
exit threshold 3/100, a tick at price 100.03 has realized gain exactly
equal to the exit threshold, yet the position is not closed (the code
never computes current_change_pct; only the predicted change is tested). -/
theorem c3_counterexample :
    actualChangePct 100 (10003/100) = (3/100 : ℚ) ∧
    (processTick longB tickGain).btc = 10 ∧
    (processTick longB tickGain).tradeLog.length = 1 := by
  refine ⟨by norm_num [actualChangePct], ?_, ?_⟩ <;>
    norm_num [longB, simB, mkSim, buy, sell, processTick, monitorStopLoss, setStopLoss,
      maeExceeds, tickGain, saveSession, updateSession, checkPredictionAccuracy,
      getPredictionAccuracy, fillBuyRec, isCorrectPred, predSign, predChange, sign,
      actualChangePct, List.cons_ne_nil]

/-- Claim C3 amended: for a tick that reaches signal evaluation while LONG
(position open, not auto-paused, no stop-loss armed, no MAE sample,
prediction present), the position is closed iff predicted_change_pct is at
or below -exit_threshold; the realized gain plays no role, and a tick with
predicted_change_pct exactly -exit_threshold triggers the SELL even with
zero realized gain. -/
theorem c3_theorem (s : SimState) (t : Tick) (pp pc : ℚ)
    (hbtc : 0 < s.btc) (hsl : s.stopLossPrice = none) (hap : s.autoPaused = false)
    (hmae : t.mae10min = none) (hpred : t.prediction = some (pp, pc)) :
    ((processTick s t).btc = 0 ↔ pc ≤ -s.exitThreshold) := by
  rw [processTick_signal s t pp pc hsl hap hmae hpred]
  have hne : s.btc ≠ 0 := ne_of_gt hbtc
  by_cases hc : pc ≤ -s.exitThreshold
  · simp only [if_neg hne, if_pos hbtc, if_pos hc]
    have h0 : ¬ (({ s with lastMae := none } : SimState).btc ≤ 0) := not_le.mpr hbtc
    simp [sell_btc _ _ _ _ _ h0, hc]
  · simp only [if_neg hne, if_pos hbtc, if_neg hc]
    simp [hne, hc]

/-- Witness for C3 amended: predicted change exactly -exit_threshold with
zero realized gain sells. -/
theorem c3_witness :
    ((processTick longB
        { timestamp := "t1", actualPrice := 100, prediction := some (100, -(3/100)),
          mae10min := none }).btc = 0 ↔ (-(3/100) : ℚ) ≤ -longB.exitThreshold) :=
  c3_theorem longB
    { timestamp := "t1", actualPrice := 100, prediction := some (100, -(3/100)),
      mae10min := none } 100 (-(3/100))
    (by norm_num [longB, simB, mkSim, buy, saveSession, List.cons_ne_nil])
    (by norm_num [longB, simB, mkSim, buy, saveSession, List.cons_ne_nil])
    (by norm_num [longB, simB, mkSim, buy, saveSession, List.cons_ne_nil])
    rfl rfl

def stopB : SimState := setStopLoss (buy simB "t0" 100 100 (5/100))

def tickStop : Tick :=
  { timestamp := "t1", actualPrice := 99, prediction := some (100, 5/100),
    mae10min := none }

/-- Claim C4, as stated, is false: with a stop-loss armed at 99, a tick at
price 99 whose prediction is above the entry threshold first forces the
stop-loss SELL but processing then continues, and a new BUY fires on the
very same tick: afterwards the position is open again (10 units) and the
trade log grew by two records. -/
theorem c4_counterexample :
    stopB.stopLossPrice = some 99 ∧
    (processTick stopB tickStop).btc = 10 ∧
    (processTick stopB tickStop).tradeLog.length = 3 ∧
    (processTick stopB tickStop).stopLossPrice = none := by
  refine ⟨?_, ?_, ?_, ?_⟩ <;>
    norm_num [stopB, simB, mkSim, buy, sell, processTick, monitorStopLoss, setStopLoss,
      setLastReason, maeExceeds, tickStop, saveSession, updateSession,
      checkPredictionAccuracy, getPredictionAccuracy, fillBuyRec, isCorrectPred, predSign,
      predChange, sign, actualChangePct, List.cons_ne_nil]

/-- Claim C4 amended: a tick at or below the armed stop-loss price forces
a SELL at that price regardless of prediction state and clears
stop_loss_price, but process_tick then continues with the same tick: when
the prediction also satisfies the entry threshold, a new BUY fires on the
very tick that triggered the stop-loss (position open again, trade log
grown by two records). -/
theorem c4_theorem (s : SimState) (t : Tick) (L pp pc : ℚ)
    (hbtc : 0 < s.btc) (hsl : s.stopLossPrice = some L) (hple : t.actualPrice ≤ L)
    (hap : s.autoPaused = false) (hmae : t.mae10min = none)
    (hpred : t.prediction = some (pp, pc)) (hentry : s.entryThreshold ≤ pc)
    (hprice : 0 < t.actualPrice) (hfee : s.feePct < 1) :
    (processTick s t).stopLossPrice = none ∧
    0 < (processTick s t).btc ∧
    (processTick s t).tradeLog.length = s.tradeLog.length + 2 := by
  have hb0 : ¬ ((tickPre s t).btc ≤ 0) := not_le.mpr hbtc
  have hm : monitorStopLoss (tickPre s t) t =
      { sell (tickPre s t) t.timestamp t.actualPrice none none with
          stopLossPrice := none } :=
    monitor_trigger (tickPre s t) t L hsl hbtc hple
  have e1 : (monitorStopLoss (tickPre s t) t).autoPaused = false := by
    rw [hm]
    show (sell (tickPre s t) t.timestamp t.actualPrice none none).autoPaused = false
    rw [sell_autoPaused _ _ _ _ _ hb0]
    exact hap
  have e2 : (monitorStopLoss (tickPre s t) t).lastMae = none := by
    rw [hm]
    show (sell (tickPre s t) t.timestamp t.actualPrice none none).lastMae = none
    rw [sell_lastMae _ _ _ _ _ hb0]
    exact hmae
  have e3 : (monitorStopLoss (tickPre s t) t).btc = 0 := by
    rw [hm]
    show (sell (tickPre s t) t.timestamp t.actualPrice none none).btc = 0
    exact sell_btc _ _ _ _ _ hb0
  have e4 : (monitorStopLoss (tickPre s t) t).entryThreshold = s.entryThreshold := by
    rw [hm]
    show (sell (tickPre s t) t.timestamp t.actualPrice none none).entryThreshold =
      s.entryThreshold
    exact sell_entryThreshold _ _ _ _ _ hb0
  have e5 : (monitorStopLoss (tickPre s t) t).stopLossPrice = none := by rw [hm]
  have e6 : (monitorStopLoss (tickPre s t) t).balance =
      s.btc * t.actualPrice - s.btc * t.actualPrice * s.feePct := by
    rw [hm]
    show (sell (tickPre s t) t.timestamp t.actualPrice none none).balance = _
    exact sell_balance _ _ _ _ _ hb0
  have e7 : (monitorStopLoss (tickPre s t) t).tradeLog.length = s.tradeLog.length + 1 := by
    rw [hm]
    show (sell (tickPre s t) t.timestamp t.actualPrice none none).tradeLog.length = _
    exact sell_tradeLog_length _ _ _ _ _ hb0
  rw [processTick_def]
  simp [e1, e2, e3, e4, maeExceeds, hpred, hentry]
  refine ⟨?_, ?_, ?_⟩
  · rw [buy_stopLossPrice, e5]
  · rw [buy_btc, e6]
    have hnum : 0 < s.btc * t.actualPrice - s.btc * t.actualPrice * s.feePct := by
      nlinarith [mul_pos hbtc hprice]
    exact div_pos hnum hprice
  · rw [buy_tradeLog_length, e7]

/-- Witness for C4 amended: the stop-loss SELL at 99 is followed by a BUY
on the same tick. -/
theorem c4_witness :
    (processTick stopB tickStop).stopLossPrice = none ∧
    0 < (processTick stopB tickStop).btc ∧
    (processTick stopB tickStop).tradeLog.length = stopB.tradeLog.length + 2 :=
  c4_theorem stopB tickStop 99 100 (5/100)
    (by norm_num [stopB, simB, mkSim, buy, setStopLoss, saveSession, List.cons_ne_nil])
    (by norm_num [stopB, simB, mkSim, buy, setStopLoss, saveSession, List.cons_ne_nil])
    (by norm_num [tickStop])
    (by norm_num [stopB, simB, mkSim, buy, setStopLoss, saveSession, List.cons_ne_nil])
    rfl rfl
    (by norm_num [stopB, simB, mkSim, buy, setStopLoss, saveSession, List.cons_ne_nil])
    (by norm_num [tickStop])
    (by norm_num [stopB, simB, mkSim, buy, setStopLoss, saveSession, List.cons_ne_nil])

def tickEntry : Tick :=
  { timestamp := "t1", actualPrice := 100, prediction := some (101, 1), mae10min := none }

/-- Claim C5, as stated, is false: a fresh FLAT simulator processing a
tick whose prediction triggers a BUY returns early, so last_tick stays
none even though the tick reached signal evaluation and a trade fired. -/
theorem c5_counterexample :
    (processTick simB tickEntry).lastTick = none ∧
    (processTick simB tickEntry).tradeLog.length = 1 := by
  constructor <;>
    norm_num [simB, mkSim, buy, sell, processTick, monitorStopLoss, setStopLoss,
      maeExceeds, tickEntry, saveSession, updateSession, checkPredictionAccuracy,
      getPredictionAccuracy, fillBuyRec, isCorrectPred, predSign, predChange, sign,
      actualChangePct, List.cons_ne_nil]

/-- Claim C5 amended: for a tick that reaches signal evaluation (no
stop-loss armed, not auto-paused, no MAE sample, prediction present),
last_tick is set to that tick exactly when no BUY and no SELL fired on it;
when a trade fires, process_tick returns before the last_tick assignment
and last_tick keeps its previous value. -/
theorem c5_theorem (s : SimState) (t : Tick) (pp pc : ℚ)
    (hsl : s.stopLossPrice = none) (hap : s.autoPaused = false)
    (hmae : t.mae10min = none) (hpred : t.prediction = some (pp, pc)) :
    (processTick s t).lastTick =
      (if (s.btc = 0 ∧ s.entryThreshold ≤ pc) ∨ (0 < s.btc ∧ pc ≤ -s.exitThreshold)
       then s.lastTick else some t) := by
  rw [processTick_signal s t pp pc hsl hap hmae hpred]
  by_cases h0 : s.btc = 0
  · by_cases he : pc ≥ s.entryThreshold
    · rw [if_pos h0, if_pos he, buy_lastTick]
      simp [h0, ge_iff_le.mp he]
    · rw [if_pos h0, if_neg he]
      have : ¬ (0 < s.btc) := by rw [h0]; exact lt_irrefl 0
      simp [ge_iff_le] at he
      simp [he, this, not_le.mpr he]
  · by_cases h1 : 0 < s.btc
    · by_cases hx : pc ≤ -s.exitThreshold
      · rw [if_neg h0, if_pos h1, if_pos hx,
          sell_lastTick { s with lastMae := none } t.timestamp t.actualPrice
            (some pp) (some pc) (not_le.mpr h1)]
        simp [h1, hx]
      · rw [if_neg h0, if_pos h1, if_neg hx]
        simp [h0, hx]
    · rw [if_neg h0, if_neg h1]
      simp [h0, h1]

def tickSmall : Tick :=
  { timestamp := "t1", actualPrice := 100, prediction := some (101, 1/100),
    mae10min := none }

/-- Witness for C5 amended: a below-threshold prediction leaves no trade
and stores the tick. -/
theorem c5_witness :
    (processTick simB tickSmall).lastTick =
      (if (simB.btc = 0 ∧ simB.entryThreshold ≤ 1/100) ∨
          (0 < simB.btc ∧ (1/100 : ℚ) ≤ -simB.exitThreshold)
       then simB.lastTick else some tickSmall) :=
  c5_theorem simB tickSmall 101 (1/100) rfl rfl rfl rfl

def brokeSim : SimState := mkSim 0 (3/100) (3/100) 0 "1m" "sC" false 12 (1/100) "t-init"

/-- Claim C6, as stated, is false on its BUY half: buy has no balance
guard, so a BUY attempted with balance 0 still executes and appends a
trade record (the SELL half is a true no-op). -/
theorem c6_counterexample :
    brokeSim.balance ≤ 0 ∧
    (buy brokeSim "t0" 100 100 1).tradeLog.length = 1 ∧
    brokeSim.tradeLog.length = 0 := by
  refine ⟨?_, ?_, ?_⟩ <;>
    norm_num [brokeSim, mkSim, buy, saveSession, checkPredictionAccuracy,
      getPredictionAccuracy, List.cons_ne_nil]

/-- Claim C6 amended: a SELL attempted with position_size <= 0 is a no-op
that leaves the whole state unchanged, but a BUY attempted with
balance <= 0 is not rejected: it executes and appends a trade record. -/
theorem c6_theorem (s : SimState) (ts : String) (p pp pc : ℚ) (pps pcs : Option ℚ) :
    (s.balance ≤ 0 → (buy s ts p pp pc).tradeLog.length = s.tradeLog.length + 1) ∧
    (s.btc ≤ 0 → sell s ts p pps pcs = s) := by
  constructor
  · intro _
    exact buy_tradeLog_length s ts p pp pc
  · intro h
    exact sell_noop s ts p pps pcs h

/-- Witness for C6 amended at a zero-balance, zero-position simulator. -/
theorem c6_witness :
    (buy brokeSim "t0" 100 100 1).tradeLog.length = brokeSim.tradeLog.length + 1 ∧
    sell brokeSim "t0" 100 none none = brokeSim :=
  ⟨(c6_theorem brokeSim "t0" 100 100 1 none none).1
      (by norm_num [brokeSim, mkSim]),
   (c6_theorem brokeSim "t0" 100 100 1 none none).2
      (by norm_num [brokeSim, mkSim])⟩

/-- Claim C7 confirmed: check_prediction_accuracy compares the sign of the
stored predicted change against the sign of
(current_price - last_actual_price) / last_actual_price * 100, increments
total_predictions exactly when the predicted sign is non-zero and
correct_predictions exactly when both signs match and are non-zero;
get_prediction_accuracy returns correct/total * 100 and 0 when total = 0;
and correct_predictions never exceeds total_predictions on any state
reachable from creation by process_tick / buy / sell calls. -/
theorem c7_theorem :
    (∀ (s : SimState) (lt : Tick) (p : ℚ),
      (checkPredictionAccuracy s lt p).1.totalPredictions =
        s.totalPredictions + (if sign (predChange lt) ≠ 0 then 1 else 0)) ∧
    (∀ (s : SimState) (lt : Tick) (p : ℚ),
      (checkPredictionAccuracy s lt p).1.correctPredictions =
        s.correctPredictions +
          (if sign (predChange lt) = sign ((p - lt.actualPrice) / lt.actualPrice * 100) ∧
              sign (predChange lt) ≠ 0
           then 1 else 0)) ∧
    (∀ s : SimState,
      getPredictionAccuracy s =
        if s.totalPredictions = 0 then 0
        else (s.correctPredictions : ℚ) / (s.totalPredictions : ℚ) * 100) ∧
    (∀ (B0 e x f maeT slPct : ℚ) (iv sid ts : String) (me : Bool) (acts : List Act),
      (runActs (mkSim B0 e x f iv sid me maeT slPct ts) acts).correctPredictions ≤
        (runActs (mkSim B0 e x f iv sid me maeT slPct ts) acts).totalPredictions) := by
  refine ⟨?_, ?_, ?_, ?_⟩
  · intro s lt p
    exact checkPA_total s lt p
  · intro s lt p
    rw [checkPA_correct]
    congr 1
    refine if_congr ?_ rfl rfl
    simp [isCorrectPred, predSign, actualChangePct, Bool.and_eq_true]
  · intro s
    by_cases ht : s.totalPredictions = 0
    · simp [getPredictionAccuracy, ht]
    · simp [getPredictionAccuracy, ht, Nat.pos_of_ne_zero ht]
  · intro B0 e x f maeT slPct iv sid ts me acts
    exact runActs_counters_le (mkSim B0 e x f iv sid me maeT slPct ts) acts (Nat.le_refl 0)

lemma findSession_register (m : ManagerState) (key : String × String) (e : ManagerEntry) :
    findSession (registerSession m key e) key = some e := by
  simp [findSession, registerSession, List.find?_cons]

def emptyMgr : ManagerState := { simulations := [] }

def startedOnce : String × ManagerState :=
  startSimulation emptyMgr "5s" "20260101_120000" 1000 (3/100) (3/100) (1/10) true 12 (1/100)

/-- Claim C8, as stated, is false: start_simulation persists nothing at
creation.  The registered fresh simulator has an empty trade log and an
empty list of persisted snapshots: save_session returns without writing
whenever the trade log is empty, so no initial empty-log record ever
reaches the persistence sink. -/
theorem c8_counterexample :
    ((findSession startedOnce.2 ("5s", startedOnce.1)).map (fun en => en.sim.saves)) =
      some [] ∧
    ((findSession startedOnce.2 ("5s", startedOnce.1)).map (fun en => en.sim.tradeLog)) =
      some [] := by
  constructor <;>
    simp [startedOnce, emptyMgr, startSimulation, registerSession, findSession,
      sessionIdOf, mkSim, List.find?_cons]

/-- Claim C8 amended: start_simulation registers a running, unpaused
session whose simulator starts with an empty trade log and no persisted
record; save_session is the identity on any state with an empty trade
log, so the first persistence can only happen at the first trade. -/
theorem c8_theorem (m : ManagerState) (iv tstr : String) (B0 e x f maeT slPct : ℚ)
    (me : Bool) :
    ((findSession (startSimulation m iv tstr B0 e x f me maeT slPct).2
        (iv, (startSimulation m iv tstr B0 e x f me maeT slPct).1)).map
      (fun en => en.sim.tradeLog)) = some [] ∧
    ((findSession (startSimulation m iv tstr B0 e x f me maeT slPct).2
        (iv, (startSimulation m iv tstr B0 e x f me maeT slPct).1)).map
      (fun en => en.sim.saves)) = some [] ∧
    (∀ s : SimState, s.tradeLog = [] → saveSession s = s) := by
  have h1 : (startSimulation m iv tstr B0 e x f me maeT slPct).1 =
      sessionIdOf iv tstr := rfl
  refine ⟨?_, ?_, ?_⟩
  · rw [h1]
    rw [show (startSimulation m iv tstr B0 e x f me maeT slPct).2 =
        registerSession m (iv, sessionIdOf iv tstr)
          { sim := mkSim B0 e x f iv (sessionIdOf iv tstr) me maeT slPct tstr,
            running := true, paused := false } from rfl]
    rw [findSession_register]
    rfl
  · rw [h1]
    rw [show (startSimulation m iv tstr B0 e x f me maeT slPct).2 =
        registerSession m (iv, sessionIdOf iv tstr)
          { sim := mkSim B0 e x f iv (sessionIdOf iv tstr) me maeT slPct tstr,
            running := true, paused := false } from rfl]
    rw [findSession_register]
    rfl
  · intro s h
    simp [saveSession, h]

/-- Witness for C8 amended at a concrete start call. -/
theorem c8_witness :
    ((findSession startedOnce.2 ("5s", startedOnce.1)).map
      (fun en => en.sim.tradeLog)) = some [] ∧
    saveSession (mkSim 1000 (3/100) (3/100) (1/10) "5s" "x" true 12 (1/100) "t") =
      mkSim 1000 (3/100) (3/100) (1/10) "5s" "x" true 12 (1/100) "t" :=
  ⟨(c8_theorem emptyMgr "5s" "20260101_120000" 1000 (3/100) (3/100) (1/10)
      12 (1/100) true).1,
   (c8_theorem emptyMgr "5s" "20260101_120000" 1000 (3/100) (3/100) (1/10)
      12 (1/100) true).2.2 _ rfl⟩

def mgrTwice : String × ManagerState :=
  startSimulation
    (startSimulation emptyMgr "1m" "20260101_120000" 1000 (3/100) (3/100) (1/10)
      true 12 (1/100)).2
    "1m" "20260101_120000" 2000 (3/100) (3/100) (1/10) true 12 (1/100)

/-- Claim C9, as stated, is false: the session id embeds only the interval
and a second-resolution timestamp, so two start_simulation calls for the
same interval in the same second return the same id, and the second
registration replaces the first (the registry keeps one entry, holding
the second simulator with start balance 2000). -/
theorem c9_counterexample :
    (startSimulation emptyMgr "1m" "20260101_120000" 1000 (3/100) (3/100) (1/10)
      true 12 (1/100)).1 = mgrTwice.1 ∧
    ((findSession mgrTwice.2 ("1m", mgrTwice.1)).map (fun en => en.sim.balance)) =
      some 2000 ∧
    mgrTwice.2.simulations.length = 1 := by
  refine ⟨rfl, ?_, ?_⟩ <;>
    norm_num [mgrTwice, emptyMgr, startSimulation, registerSession, findSession,
      sessionIdOf, mkSim, List.find?_cons, List.filter]

/-- Claim C9 amended: within one interval, session ids are distinct
exactly when the second-resolution creation timestamps are distinct; two
calls with the same interval in the same second receive the same id and
the second registration then replaces the first registry entry. -/
theorem c9_theorem :
    (∀ iv t1 t2 : String, sessionIdOf iv t1 = sessionIdOf iv t2 ↔ t1 = t2) ∧
    (∀ (m : ManagerState) (iv tstr : String)
       (B1 e1 x1 f1 B2 e2 x2 f2 maeT slPct : ℚ) (me : Bool),
      findSession
          (startSimulation
            (startSimulation m iv tstr B1 e1 x1 f1 me maeT slPct).2
            iv tstr B2 e2 x2 f2 me maeT slPct).2
          (iv, sessionIdOf iv tstr) =
        some { sim := mkSim B2 e2 x2 f2 iv (sessionIdOf iv tstr) me maeT slPct tstr,
               running := true, paused := false }) := by
  constructor
  · intro iv t1 t2
    constructor
    · intro h
      have hd := congrArg String.data h
      simp only [sessionIdOf, String.data_append] at hd
      exact String.ext (List.append_cancel_left hd)
    · intro h
      rw [h]
  · intro m iv tstr B1 e1 x1 f1 B2 e2 x2 f2 maeT slPct me
    exact findSession_register _ _ _

/-- Witness for C9 amended is not needed for the universal parts, but the
replacement fact at the concrete collision is recorded anyway. -/
theorem c9_witness :
    findSession mgrTwice.2 ("1m", sessionIdOf "1m" "20260101_120000") =
      some { sim := mkSim 2000 (3/100) (3/100) (1/10) "1m"
               (sessionIdOf "1m" "20260101_120000") true 12 (1/100) "20260101_120000",
             running := true, paused := false } :=
  c9_theorem.2 emptyMgr "1m" "20260101_120000" 1000 (3/100) (3/100) (1/10)
    2000 (3/100) (3/100) (1/10) 12 (1/100) true

def tickPos : Tick :=
  { timestamp := "ta", actualPrice := 100, prediction := some (100, 1/100),
    mae10min := none }

def tickZero : Tick :=
  { timestamp := "ta", actualPrice := 100, prediction := some (100, 0),
    mae10min := none }

def longWithLast : SimState := buy (processTick simB tickPos) "tb" 100 101 1

def longWithZeroLast : SimState := buy (processTick simB tickZero) "tb" 100 101 1

/-- Claim C10, as stated, is false in its counter part: when the stored
last_tick prediction has zero sign, the SELL still invokes the accuracy
check twice, but total_predictions increases by 0, not by 2, even though
a pending BUY record, a last_tick and a non-null prediction are present. -/
theorem c10_counterexample :
    ((longWithZeroLast.pendingLog.map (fun r => r.type)) = some "BUY") ∧
    longWithZeroLast.lastTick = some tickZero ∧
    0 < longWithZeroLast.btc ∧
    longWithZeroLast.totalPredictions = 0 ∧
    (sell longWithZeroLast "tc" 110 (some 111) (some (-1))).totalPredictions = 0 := by
  refine ⟨?_, ?_, ?_, ?_, ?_⟩ <;>
    try norm_num [longWithZeroLast, simB, mkSim, buy, sell, processTick, monitorStopLoss,
      setStopLoss, maeExceeds, tickZero, saveSession, updateSession,
      checkPredictionAccuracy, getPredictionAccuracy, fillBuyRec, isCorrectPred,
      predSign, predChange, sign, actualChangePct, List.cons_ne_nil]

/-- Claim C10 amended: when a SELL executes with a non-null prediction
while a pending BUY record and a last_tick exist, the accuracy check runs
twice with that same last_tick and the same fill price, so
total_predictions grows by 2 when the stored predicted change has
non-zero sign (and by 0 when its sign is zero), and correct_predictions
grows by 2 exactly when that prediction is scored correct. -/
theorem c10_theorem (s : SimState) (ts : String) (price q : ℚ) (pc : Option ℚ)
    (lt : Tick) (hb : ¬ s.btc ≤ 0)
    (hplty : (s.pendingLog.map (fun r => r.type)) = some "BUY")
    (hlt : s.lastTick = some lt) :
    (sell s ts price (some q) pc).totalPredictions =
      s.totalPredictions + (if predSign lt ≠ 0 then 2 else 0) ∧
    (sell s ts price (some q) pc).correctPredictions =
      s.correctPredictions + (if isCorrectPred lt price then 2 else 0) := by
  rcases hpl : s.pendingLog with _ | pl
  · rw [hpl] at hplty
    simp at hplty
  · rw [hpl] at hplty
    have hty : pl.type = "BUY" := by simpa using hplty
    simp only [sell, if_neg hb]
    simp [hpl, hlt, hty, checkPA_fst, checkPA_snd, saveSession_eq, updateSession_eq]
    constructor
    · by_cases hz : predSign lt = 0 <;> simp [hz]
    · by_cases hc : isCorrectPred lt price <;> simp [hc]

/-- Witness for C10 amended: the stored prediction has positive sign, so
the SELL adds 2 to total_predictions (and 2 to correct_predictions, the
price having risen). -/
theorem c10_witness :
    (sell longWithLast "tc" 110 (some 111) (some (-1))).totalPredictions =
      longWithLast.totalPredictions + (if predSign tickPos ≠ 0 then 2 else 0) ∧
    (sell longWithLast "tc" 110 (some 111) (some (-1))).correctPredictions =
      longWithLast.correctPredictions + (if isCorrectPred tickPos 110 then 2 else 0) :=
  c10_theorem longWithLast "tc" 110 111 (some (-1)) tickPos
    (by norm_num [longWithLast, simB, mkSim, buy, processTick, monitorStopLoss,
      maeExceeds, tickPos, saveSession, checkPredictionAccuracy, getPredictionAccuracy,
      isCorrectPred, predSign, predChange, sign, actualChangePct, List.cons_ne_nil])
    (by norm_num [longWithLast, simB, mkSim, buy, processTick, monitorStopLoss,
      maeExceeds, tickPos, saveSession, checkPredictionAccuracy, getPredictionAccuracy,
      isCorrectPred, predSign, predChange, sign, actualChangePct, List.cons_ne_nil])
    (by norm_num [longWithLast, simB, mkSim, buy, processTick, monitorStopLoss,
      maeExceeds, tickPos, saveSession, checkPredictionAccuracy, getPredictionAccuracy,
      isCorrectPred, predSign, predChange, sign, actualChangePct, List.cons_ne_nil])

end TradeSim
